import Mathlib

/-!
Verification development for the PR-analyzer review pipeline
(`pr_analyzer/main.py`, `pr_analyzer/code_analyzer.py`,
`pr_analyzer/github_commenter.py`).

The Python source is shallowly embedded: pure string formatting becomes
Lean string functions, the network-facing pieces (GitHub fetches, the
OpenAI oracle, the comment POST) become explicit inputs of an
environment record, and the orchestrator `analyze_pr` becomes a pure
function from that environment to its returned dict plus a trace of the
external calls it makes.
-/

set_option maxRecDepth 20000

namespace PRAnalyzer

/-! ### String helpers modelling Python primitives

`pyContains hay needle` models the Python expression `needle in hay`;
`pyUpper` models `str.upper()` (the severity markers scanned for are
ASCII, where the two agree). -/

def listIsPrefixB : List Char → List Char → Bool
  | [], _ => true
  | _ :: _, [] => false
  | a :: as, b :: bs => a == b && listIsPrefixB as bs

def listContainsB (needle : List Char) : List Char → Bool
  | [] => needle.isEmpty
  | b :: bs => listIsPrefixB needle (b :: bs) || listContainsB needle bs

def pyContains (hay needle : String) : Bool :=
  listContainsB needle.data hay.data

def pyUpper (s : String) : String :=
  String.mk (s.data.map Char.toUpper)

theorem listIsPrefixB_iff (n h : List Char) : listIsPrefixB n h = true ↔ n <+: h := by
  induction n generalizing h with
  | nil => simp [listIsPrefixB]
  | cons a as ih =>
    cases h with
    | nil => simp [listIsPrefixB]
    | cons b bs => simp [listIsPrefixB, List.cons_prefix_cons, ih, And.comm]

theorem listContainsB_iff (n h : List Char) : listContainsB n h = true ↔ n <:+: h := by
  induction h with
  | nil => cases n <;> simp [listContainsB, List.isEmpty]
  | cons b bs ih =>
    rw [List.infix_cons_iff]
    simp [listContainsB, listIsPrefixB_iff, ih]

theorem pyContains_iff (hay needle : String) :
    pyContains hay needle = true ↔ needle.data <:+: hay.data :=
  listContainsB_iff needle.data hay.data

theorem pyUpper_data (s : String) : (pyUpper s).data = s.data.map Char.toUpper := rfl

/-! ### Data model (from `diff_extractor.py`, `code_analyzer.py`, `github_commenter.py`) -/

structure ChangedFile where
  filename : String
  status : String
  additions : Nat
  deletions : Nat
  patch : Option String
  content : Option String := none
deriving DecidableEq

structure AnalysisResult where
  filename : String
  security : String
  quality : String
  migration : String
  refactoring : String
  has_critical_issues : Bool := false
  has_high_issues : Bool := false
deriving DecidableEq

/-- The four category texts one per-file oracle round produces
(`_call_openai` on the four prompts of `code_analyzer.py`). -/
structure OracleTexts where
  security : String
  quality : String
  migration : String
  refactoring : String
deriving DecidableEq

structure CommentResult where
  success : Bool
  comment_url : Option String := none
  error : Option String := none
deriving DecidableEq

/-- The part of an HTTP response that `post_comment` inspects. -/
structure HttpResponse where
  status_code : Nat
  html_url : Option String := none
  text : String := ""
deriving DecidableEq

/-! ### code_analyzer.py -/

/-- Line 185 of `code_analyzer.py`:
`"🔴 CRITICAL" in security or "CRITICAL" in security.upper()`. -/
def hasCriticalMarker (security : String) : Bool :=
  pyContains security "🔴 CRITICAL" || pyContains (pyUpper security) "CRITICAL"

/-- Line 186 of `code_analyzer.py`:
`"🟠 HIGH" in security or "HIGH" in security.upper()`. -/
def hasHighMarker (security : String) : Bool :=
  pyContains security "🟠 HIGH" || pyContains (pyUpper security) "HIGH"

/-- `CodeAnalyzer.analyze_file`, given the four oracle texts. -/
def analyze_file (filename : String) (t : OracleTexts) : AnalysisResult :=
  { filename := filename
    security := t.security
    quality := t.quality
    migration := t.migration
    refactoring := t.refactoring
    has_critical_issues := hasCriticalMarker t.security
    has_high_issues := hasHighMarker t.security }

/-- `CodeAnalyzer.analyze_security_only`, given the security oracle text. -/
def analyze_security_only (filename : String) (security : String) : AnalysisResult :=
  { filename := filename
    security := security
    quality := ""
    migration := ""
    refactoring := ""
    has_critical_issues := hasCriticalMarker security
    has_high_issues := hasHighMarker security }

/-! ### github_commenter.py -/

/-- `GitHubCommenter.post_comment`, as a function of the HTTP response the
POST obtained. -/
def post_comment (resp : HttpResponse) : CommentResult :=
  if resp.status_code = 201 then
    { success := true, comment_url := resp.html_url }
  else
    { success := false
      error := some ("Failed to post comment: " ++ toString resp.status_code
        ++ " - " ++ resp.text) }

/-- Lines 91-102 of `github_commenter.py` (the unused `status_color`
assignments are dropped). -/
def statusEmoji (has_critical has_high : Bool) : String :=
  if has_critical then "🚨" else if has_high then "⚠️" else "✅"

def statusText (has_critical has_high : Bool) : String :=
  if has_critical then "CRITICAL ISSUES FOUND"
  else if has_high then "HIGH SEVERITY ISSUES FOUND"
  else "No Critical Issues"

/-- Everything of the header f-string (lines 104-112) before the
interpolated timestamp. -/
def headerBeforeTime (has_critical has_high : Bool) (pr_title : String) (numFiles : Nat) :
    String :=
  "## " ++ statusEmoji has_critical has_high ++ " AI Code Review - "
    ++ statusText has_critical has_high
    ++ "\n\n> **PR:** " ++ pr_title
    ++ "  \n> **Scanned:** " ++ toString numFiles
    ++ " Python file(s)  \n> **Time:** "

def secHeader : String := "<summary>🔒 Security Analysis</summary>\n\n"

def qualHeader : String := "<summary>📊 Code Quality</summary>\n\n"

def migHeader : String := "<summary>📋 Migration Assessment</summary>\n\n"

def refHeader : String := "<summary>🔧 Refactoring Suggestions</summary>\n\n"

def detailsClose : String := "\n\n</details>"

/-- The per-file block appended for each analysis (lines 115-148 of
`github_commenter.py`); the f-string is split here at the category
boundaries, the concatenation is byte-identical to the source. -/
def fileSection (a : AnalysisResult) : String :=
  "### 📄 `" ++ a.filename ++ "`\n\n<details>\n"
    ++ (secHeader ++ a.security ++ detailsClose)
    ++ "\n\n<details>\n" ++ (qualHeader ++ a.quality ++ detailsClose)
    ++ "\n\n<details>\n" ++ (migHeader ++ a.migration ++ detailsClose)
    ++ "\n\n<details>\n" ++ (refHeader ++ a.refactoring ++ detailsClose)
    ++ "\n\n---\n\n"

def sectionsBlock : List AnalysisResult → String
  | [] => ""
  | a :: rest => fileSection a ++ sectionsBlock rest

/-- The critical footer (lines 152-170). -/
def footerCritical : String :=
  "\n## ⛔ Merge Recommendation\n\n**Critical security issues were found.** "
    ++ "Please address these before merging:\n\n"
    ++ "- [ ] Review and fix all 🔴 CRITICAL findings\n"
    ++ "- [ ] Review and fix all 🟠 HIGH findings\n"
    ++ "- [ ] Re-run the security scan\n\n<details>\n"
    ++ "<summary>🤔 Need help fixing these issues?</summary>\n\n"
    ++ "Run the refactoring tool locally:\n```bash\n"
    ++ "python ai_code_analyzer.py --file <your-file> --refactor\n```\n\n</details>\n"

/-- The high-severity footer (lines 172-181). -/
def footerHigh : String :=
  "\n## ⚠️ Merge Recommendation\n\n**High severity issues were found.** "
    ++ "Consider addressing these before merging:\n\n"
    ++ "- [ ] Review all 🟠 HIGH findings\n"
    ++ "- [ ] Decide if fixes are needed before merge or can be addressed later\n\n"
    ++ "**Proceed with caution.**\n"

/-- The clear footer (lines 183-194). -/
def footerClear : String :=
  "\n## ✅ Merge Recommendation\n\n"
    ++ "No critical or high severity issues found. **Safe to proceed with merge** "
    ++ "after standard code review.\n\n<details>\n<summary>💡 Pro tip</summary>\n\n"
    ++ "Even without critical issues, consider reviewing the quality and refactoring "
    ++ "suggestions for improvement opportunities.\n\n</details>\n"

/-- The `if has_critical / elif has_high / else` footer choice
(lines 151-194). -/
def mergeRecommendation (has_critical has_high : Bool) : String :=
  if has_critical then footerCritical
  else if has_high then footerHigh
  else footerClear

def commentTail (repo : String) : String :=
  "\n\n---\n<sub>🤖 Powered by AI Code Analyzer | [View Documentation]"
    ++ "(https://github.com/" ++ repo ++ ")</sub>\n"

/-- `GitHubCommenter.format_analysis_comment`.  `repo` is the commenter
instance field `self.repo`; `timestamp` is the string the internal
`datetime.now().strftime(...)` call produced at entry (line 88). -/
def format_analysis_comment (repo : String) (analyses : List AnalysisResult)
    (pr_title : String) (has_critical has_high : Bool) (timestamp : String) : String :=
  headerBeforeTime has_critical has_high pr_title analyses.length
    ++ timestamp ++ "\n\n---\n\n"
    ++ sectionsBlock analyses
    ++ mergeRecommendation has_critical has_high
    ++ commentTail repo

/-! ### main.py — the orchestrator

`analyze_pr` in `main.py` is embedded as a pure function of an
environment supplying what the network calls would return:
the PR-info fetch outcome, the changed-file list outcome, the per-file
oracle outcome (atomic per file, as in the source a failing category
call aborts the whole `analyze_file` for that file), the HTTP response
to the n-th comment POST of the run, and the string the internal clock
read produces inside `format_analysis_comment`.  Alongside the returned
dict it yields a trace of the external calls it performed. -/

structure Env where
  repo : String
  prInfo : Except String String
  changedFiles : Except String (List ChangedFile)
  oracle : String → String → Except String OracleTexts
  postResp : Nat → HttpResponse
  now : String

/-- The dict `analyze_pr` returns; absent keys are `none`. -/
structure RunResult where
  success : Bool
  files_analyzed : Option Nat := none
  has_critical : Option Bool := none
  has_high : Option Bool := none
  pr_title : Option String := none
  message : Option String := none
  error : Option String := none
deriving DecidableEq

/-- External calls observed during a run: filenames sent to the oracle,
and bodies handed to `post_comment` (whether or not the POST succeeded). -/
structure Trace where
  oracleCalls : List String := []
  postAttempts : List String := []
deriving DecidableEq

/-- State of the step-3 loop of `analyze_pr` (lines 80-107 of `main.py`). -/
structure LoopState where
  analyses : List AnalysisResult := []
  has_critical : Bool := false
  has_high : Bool := false
  attempted : List String := []
deriving DecidableEq

/-- One iteration of the step-3 loop.  `if not file.content` skips files
whose content is `None` or the empty string; a per-file oracle failure
is caught and only printed (lines 106-107). -/
def loopStep (oracle : String → String → Except String OracleTexts) (full : Bool)
    (s : LoopState) (file : ChangedFile) : LoopState :=
  match file.content with
  | none => s
  | some content =>
    if content = "" then s
    else
      match oracle file.filename content with
      | .error _ => { s with attempted := s.attempted ++ [file.filename] }
      | .ok texts =>
        let result := if full then analyze_file file.filename texts
                      else analyze_security_only file.filename texts.security
        { analyses := s.analyses ++ [result]
          has_critical := s.has_critical || result.has_critical_issues
          has_high := s.has_high || result.has_high_issues
          attempted := s.attempted ++ [file.filename] }

def runLoop (oracle : String → String → Except String OracleTexts) (full : Bool)
    (files : List ChangedFile) : LoopState :=
  files.foldl (loopStep oracle full) {}

/-- The comment body posted on the zero-retained-files path (line 73). -/
def noFilesComment : String :=
  "## ✅ AI Code Review\n\nNo Python files were changed in this PR. Skipping analysis."

/-- `PRAnalyzer.analyze_pr` (lines 43-135 of `main.py`). -/
def analyze_pr (env : Env) (full_analysis : Bool) : RunResult × Trace :=
  match env.prInfo with
  | .error e =>
    ({ success := false, error := some ("Failed to get PR info: " ++ e) }, {})
  | .ok pr_title =>
    match env.changedFiles with
    | .error e =>
      ({ success := false, error := some ("Failed to get changed files: " ++ e) }, {})
    | .ok changed_files =>
      if changed_files.isEmpty then
        -- the CommentResult of this post is never inspected (lines 71-75)
        ({ success := true, files_analyzed := some 0
           message := some "No Python files to analyze" },
         { postAttempts := [noFilesComment] })
      else
        let s := runLoop env.oracle full_analysis changed_files
        if s.analyses.isEmpty then
          ({ success := true, files_analyzed := some 0
             has_critical := some s.has_critical, has_high := some s.has_high
             pr_title := some pr_title },
           { oracleCalls := s.attempted })
        else
          let body := format_analysis_comment env.repo s.analyses pr_title
            s.has_critical s.has_high env.now
          let result := post_comment (env.postResp 0)
          if result.success then
            ({ success := true, files_analyzed := some s.analyses.length
               has_critical := some s.has_critical, has_high := some s.has_high
               pr_title := some pr_title },
             { oracleCalls := s.attempted, postAttempts := [body] })
          else
            ({ success := false, error := result.error },
             { oracleCalls := s.attempted, postAttempts := [body] })

/-! ### Characterization of the step-3 loop -/

/-- The per-file outcome of one loop iteration: `none` when the file is
skipped (absent/empty content, or oracle failure), otherwise the
`AnalysisResult` appended to `analyses`. -/
def attemptOf (oracle : String → String → Except String OracleTexts) (full : Bool)
    (f : ChangedFile) : Option AnalysisResult :=
  match f.content with
  | none => none
  | some c =>
    if c = "" then none
    else
      match oracle f.filename c with
      | .error _ => none
      | .ok t =>
        some (if full then analyze_file f.filename t
              else analyze_security_only f.filename t.security)

/-- The filename a loop iteration sends to the oracle, if any: files with
absent or empty content are never sent. -/
def attemptedName (f : ChangedFile) : Option String :=
  match f.content with
  | none => none
  | some c => if c = "" then none else some f.filename

theorem foldl_loopStep_eq (oracle : String → String → Except String OracleTexts)
    (full : Bool) (s : LoopState) (fs : List ChangedFile) :
    fs.foldl (loopStep oracle full) s =
      { analyses := s.analyses ++ fs.filterMap (attemptOf oracle full)
        has_critical := s.has_critical
          || (fs.filterMap (attemptOf oracle full)).any (·.has_critical_issues)
        has_high := s.has_high
          || (fs.filterMap (attemptOf oracle full)).any (·.has_high_issues)
        attempted := s.attempted ++ fs.filterMap attemptedName } := by
  induction fs generalizing s with
  | nil => simp
  | cons f fs ih =>
    simp only [List.foldl_cons, List.filterMap_cons]
    cases hco : f.content with
    | none =>
      simp [loopStep, attemptOf, attemptedName, hco, ih]
    | some c =>
      by_cases hce : c = ""
      · simp [loopStep, attemptOf, attemptedName, hco, hce, ih]
      · cases hor : oracle f.filename c with
        | error e =>
          simp [loopStep, attemptOf, attemptedName, hco, hce, hor, ih,
            List.append_assoc]
        | ok t =>
          simp [loopStep, attemptOf, attemptedName, hco, hce, hor, ih,
            List.append_assoc, Bool.or_assoc]

theorem runLoop_eq (oracle : String → String → Except String OracleTexts)
    (full : Bool) (fs : List ChangedFile) :
    runLoop oracle full fs =
      { analyses := fs.filterMap (attemptOf oracle full)
        has_critical := (fs.filterMap (attemptOf oracle full)).any (·.has_critical_issues)
        has_high := (fs.filterMap (attemptOf oracle full)).any (·.has_high_issues)
        attempted := fs.filterMap attemptedName } := by
  simpa [runLoop] using foldl_loopStep_eq oracle full {} fs

/-! ### Severity-marker facts -/

theorem pyContains_upper_of_marker (s marker sub : String)
    (hm : marker.data.map Char.toUpper = marker.data)
    (hsub : sub.data <:+: marker.data)
    (h : pyContains s marker = true) : pyContains (pyUpper s) sub = true := by
  rw [pyContains_iff] at h ⊢
  rw [pyUpper_data]
  exact hsub.trans (hm ▸ h.map Char.toUpper)

/-- The first disjunct of line 185 of `code_analyzer.py` is subsumed by the
second: the flag is exactly a case-insensitive scan for `CRITICAL`. -/
theorem hasCriticalMarker_eq (s : String) :
    hasCriticalMarker s = pyContains (pyUpper s) "CRITICAL" := by
  unfold hasCriticalMarker
  cases h : pyContains s "🔴 CRITICAL" with
  | false => simp
  | true =>
    have hsub : ("CRITICAL" : String).data <:+: ("🔴 CRITICAL" : String).data :=
      (listContainsB_iff _ _).mp rfl
    simp [pyContains_upper_of_marker s "🔴 CRITICAL" "CRITICAL" (by decide) hsub h]

/-- Likewise for line 186: the flag is exactly a case-insensitive scan
for `HIGH`. -/
theorem hasHighMarker_eq (s : String) :
    hasHighMarker s = pyContains (pyUpper s) "HIGH" := by
  unfold hasHighMarker
  cases h : pyContains s "🟠 HIGH" with
  | false => simp
  | true =>
    have hsub : ("HIGH" : String).data <:+: ("🟠 HIGH" : String).data :=
      (listContainsB_iff _ _).mp rfl
    simp [pyContains_upper_of_marker s "🟠 HIGH" "HIGH" (by decide) hsub h]

/-! ### Verdict and severity models (spec section 3) -/

inductive Verdict
  | Blocked
  | CautionAdvised
  | Clear
deriving DecidableEq

/-- Modelled from the spec: Critical present gives Blocked, else High
present gives CautionAdvised, else Clear. -/
def verdictOf : Bool → Bool → Verdict
  | true, _ => .Blocked
  | false, true => .CautionAdvised
  | false, false => .Clear

/-- The footer block each verdict tier corresponds to in the rendered
report. -/
def Verdict.render : Verdict → String
  | .Blocked => footerCritical
  | .CautionAdvised => footerHigh
  | .Clear => footerClear

inductive Severity
  | NoSev
  | Low
  | Medium
  | High
  | Critical
deriving DecidableEq

/-- The severity classification induced by the two per-file flags, the
critical flag dominating. -/
def severityClass : Bool → Bool → Severity
  | true, _ => .Critical
  | false, true => .High
  | false, false => .NoSev

/-! ### Claims -/

/-- C1: for every pair of overall flags, the rendered verdict is a pure,
total function of the two flags alone: critical gives Blocked, else high
gives CautionAdvised, else Clear; the three footers are pairwise
distinct, and no other formatter input affects which footer is
rendered. -/
theorem verdict_pure_function_of_flags (hc hh : Bool) :
    mergeRecommendation hc hh = Verdict.render (verdictOf hc hh) ∧
    verdictOf hc hh
      = (match hc, hh with
         | true, _ => Verdict.Blocked
         | false, true => Verdict.CautionAdvised
         | false, false => Verdict.Clear) ∧
    (∀ repo analyses pr_title ts,
      format_analysis_comment repo analyses pr_title hc hh ts =
        headerBeforeTime hc hh pr_title analyses.length ++ ts ++ "\n\n---\n\n"
          ++ sectionsBlock analyses ++ Verdict.render (verdictOf hc hh)
          ++ commentTail repo) ∧
    (footerCritical ≠ footerHigh ∧ footerCritical ≠ footerClear
      ∧ footerHigh ≠ footerClear) := by
  refine ⟨?_, ?_, ?_, by decide, by decide, by decide⟩
  · cases hc <;> cases hh <;> rfl
  · cases hc <;> cases hh <;> rfl
  · intro repo analyses pr_title ts
    cases hc <;> cases hh <;> rfl

/-- C4: the per-file flags are computed by a case-insensitive scan of the
security text for the literal markers `CRITICAL` and `HIGH`; only the
security text drives them (the other three category texts do not appear
on the right-hand sides), and the induced classification gives the
highest severity found. -/
theorem severity_flags_scan_security_text (fn : String) (t : OracleTexts) :
    (analyze_file fn t).has_critical_issues = pyContains (pyUpper t.security) "CRITICAL" ∧
    (analyze_file fn t).has_high_issues = pyContains (pyUpper t.security) "HIGH" ∧
    (analyze_security_only fn t.security).has_critical_issues
      = pyContains (pyUpper t.security) "CRITICAL" ∧
    (analyze_security_only fn t.security).has_high_issues
      = pyContains (pyUpper t.security) "HIGH" ∧
    severityClass (analyze_file fn t).has_critical_issues
        (analyze_file fn t).has_high_issues
      = (if pyContains (pyUpper t.security) "CRITICAL" = true then Severity.Critical
         else if pyContains (pyUpper t.security) "HIGH" = true then Severity.High
         else Severity.NoSev) := by
  refine ⟨hasCriticalMarker_eq t.security, hasHighMarker_eq t.security,
    hasCriticalMarker_eq t.security, hasHighMarker_eq t.security, ?_⟩
  show severityClass (hasCriticalMarker t.security) (hasHighMarker t.security) = _
  rw [hasCriticalMarker_eq, hasHighMarker_eq]
  cases h1 : pyContains (pyUpper t.security) "CRITICAL" <;>
    cases h2 : pyContains (pyUpper t.security) "HIGH" <;> rfl

/-! ### Aggregation fold -/

/-- The combining operation of the step-3 aggregation: logical OR on both
overall flags. -/
def or2 (a b : Bool × Bool) : Bool × Bool := (a.1 || b.1, a.2 || b.2)

/-- The overall flags a batch of per-file results folds to. -/
def aggFlags (rs : List AnalysisResult) : Bool × Bool :=
  (rs.any (·.has_critical_issues), rs.any (·.has_high_issues))

theorem perm_any_eq {α : Type} (p : α → Bool) {l₁ l₂ : List α} (h : l₁.Perm l₂) :
    l₁.any p = l₂.any p := by
  cases e₂ : l₂.any p with
  | true =>
    rw [List.any_eq_true] at e₂ ⊢
    obtain ⟨x, hx, hpx⟩ := e₂
    exact ⟨x, h.mem_iff.mpr hx, hpx⟩
  | false =>
    rw [List.any_eq_false] at e₂ ⊢
    intro x hx
    exact e₂ x (h.mem_iff.mp hx)

/-! ### Concrete fixtures used by witnesses and counterexamples -/

def fileA : ChangedFile :=
  { filename := "a.py", status := "modified", additions := 1, deletions := 0
    patch := some "", content := some "print(1)" }

def fileB : ChangedFile :=
  { filename := "b.py", status := "added", additions := 2, deletions := 0
    patch := some "", content := some "print(2)" }

def fileNoContent : ChangedFile :=
  { filename := "skipped_one.py", status := "modified", additions := 0, deletions := 0
    patch := some "", content := none }

/-- An oracle that reports a critical finding for `a.py` and a clean
report otherwise. -/
def oracleW : String → String → Except String OracleTexts := fun fn _ =>
  .ok { security := if fn = "a.py" then "🔴 CRITICAL: sql injection" else "all good"
        quality := "q", migration := "m", refactoring := "r" }

def oracleFailAll : String → String → Except String OracleTexts :=
  fun _ _ => .error "OpenAI API Error: RateLimitError"

def okResp : HttpResponse :=
  { status_code := 201, html_url := some "https://github.com/x/comment" }

def errResp : HttpResponse := { status_code := 500, text := "boom" }

/-- C5: the aggregation fold over per-file results is associative and
commutative, so analyzing the files in any order or grouping yields the
same overall flags and the same skip count, while the analyses kept for
the report stay in retrieval order. -/
theorem aggregation_fold_order_independent
    (oracle : String → String → Except String OracleTexts) (full : Bool)
    (fs₁ fs₂ : List ChangedFile) (hperm : fs₁.Perm fs₂) :
    (∀ a b c : Bool × Bool, or2 (or2 a b) c = or2 a (or2 b c)) ∧
    (∀ a b : Bool × Bool, or2 a b = or2 b a) ∧
    (∀ xs ys : List AnalysisResult, aggFlags (xs ++ ys) = or2 (aggFlags xs) (aggFlags ys)) ∧
    ((runLoop oracle full fs₁).has_critical, (runLoop oracle full fs₁).has_high)
      = aggFlags (runLoop oracle full fs₁).analyses ∧
    ((runLoop oracle full fs₁).has_critical, (runLoop oracle full fs₁).has_high)
      = ((runLoop oracle full fs₂).has_critical, (runLoop oracle full fs₂).has_high) ∧
    (runLoop oracle full fs₁).analyses.length = (runLoop oracle full fs₂).analyses.length ∧
    fs₁.countP (fun f => (attemptOf oracle full f).isNone)
      = fs₂.countP (fun f => (attemptOf oracle full f).isNone) ∧
    (runLoop oracle full fs₁).analyses = fs₁.filterMap (attemptOf oracle full) := by
  refine ⟨?_, ?_, ?_, ?_, ?_, ?_, ?_, ?_⟩
  · intro a b c; simp [or2, Bool.or_assoc]
  · intro a b; simp [or2, Bool.or_comm]
  · intro xs ys; simp [aggFlags, or2]
  · rw [runLoop_eq]; rfl
  · rw [runLoop_eq, runLoop_eq]
    exact Prod.ext (perm_any_eq _ (hperm.filterMap _)) (perm_any_eq _ (hperm.filterMap _))
  · rw [runLoop_eq, runLoop_eq]
    exact (hperm.filterMap _).length_eq
  · exact hperm.countP_eq _
  · rw [runLoop_eq]

/-- Witness for C5 at a concrete pair of permuted file lists. -/
theorem aggregation_fold_order_independent_witness :
    ([fileA, fileB]).Perm [fileB, fileA] ∧
    ((runLoop oracleW true [fileA, fileB]).has_critical,
        (runLoop oracleW true [fileA, fileB]).has_high)
      = ((runLoop oracleW true [fileB, fileA]).has_critical,
        (runLoop oracleW true [fileB, fileA]).has_high) :=
  ⟨List.Perm.swap fileB fileA [],
    (aggregation_fold_order_independent oracleW true [fileA, fileB] [fileB, fileA]
      (List.Perm.swap fileB fileA [])).2.2.2.2.1⟩

def envC2 : Env :=
  { repo := "o/r", prInfo := .ok "t", changedFiles := .ok [fileA]
    oracle := oracleFailAll, postResp := fun _ => okResp, now := "ts" }

/-- C2 counterexample: one file with present content is attempted, its
oracle call fails, so zero files are analyzed — yet the run returns
success instead of failing. -/
theorem all_attempts_failed_still_succeeds :
    (analyze_pr envC2 true).2.oracleCalls = ["a.py"] ∧
    (analyze_pr envC2 true).1.files_analyzed = some 0 ∧
    (analyze_pr envC2 true).1.success = true :=
  ⟨rfl, rfl, rfl⟩

/-- C2 amended: when every attempted per-file analysis fails the run does
not fail; it skips posting and returns success with zero files analyzed;
when at least one file is analyzed the run proceeds to formatting and
posting the report. -/
theorem analysis_outcome_determines_posting (env : Env) (full : Bool)
    (title : String) (fs : List ChangedFile)
    (h1 : env.prInfo = .ok title) (h2 : env.changedFiles = .ok fs) (h3 : fs ≠ []) :
    ((runLoop env.oracle full fs).analyses = [] →
        (analyze_pr env full).1.success = true ∧
        (analyze_pr env full).1.files_analyzed = some 0 ∧
        (analyze_pr env full).2.postAttempts = []) ∧
    ((runLoop env.oracle full fs).analyses ≠ [] →
        (analyze_pr env full).2.postAttempts
          = [format_analysis_comment env.repo (runLoop env.oracle full fs).analyses
              title (runLoop env.oracle full fs).has_critical
              (runLoop env.oracle full fs).has_high env.now]) := by
  have hne : fs.isEmpty = false := by
    cases fs with
    | nil => exact absurd rfl h3
    | cons a l => rfl
  constructor
  · intro hA
    simp [analyze_pr, h1, h2, hne, hA]
  · intro hA
    have hA' : (runLoop env.oracle full fs).analyses.isEmpty = false := by
      cases hx : (runLoop env.oracle full fs).analyses with
      | nil => exact absurd hx hA
      | cons a l => rfl
    cases hp : (post_comment (env.postResp 0)).success <;>
      simp [analyze_pr, h1, h2, hne, hA', hp]

/-- Witness for the C2 amended theorem at the all-skipped environment. -/
theorem analysis_outcome_determines_posting_witness :
    (runLoop envC2.oracle true [fileA]).analyses = [] ∧
    (analyze_pr envC2 true).1.success = true :=
  ⟨rfl, ((analysis_outcome_determines_posting envC2 true "t" [fileA] rfl rfl
    (List.cons_ne_nil _ _)).1 rfl).1⟩

def oracleBenign : String → String → Except String OracleTexts := fun _ _ =>
  .ok { security := "all good", quality := "q", migration := "m", refactoring := "r" }

def envC3 : Env :=
  { repo := "o/r", prInfo := .ok "t", changedFiles := .ok [fileNoContent, fileA]
    oracle := oracleBenign, postResp := fun _ => okResp, now := "ts" }

/-- C3 counterexample: the absent-content file is indeed never sent to
the oracle, but no skipped-file count exists anywhere in the returned
dict, and the skipped filename does not appear in the posted report —
the run result is exactly the success dict for one analyzed file. -/
theorem skipped_file_absent_from_report :
    (analyze_pr envC3 true).2.oracleCalls = ["a.py"] ∧
    (analyze_pr envC3 true).1
      = { success := true, files_analyzed := some 1, has_critical := some false
          has_high := some false, pr_title := some "t" } ∧
    ((analyze_pr envC3 true).2.postAttempts.map
        (fun b => pyContains b "skipped_one.py")) = [false] := by
  refine ⟨rfl, ?_, by decide⟩
  decide

/-- C3 amended: a file with absent content is never sent to the oracle
and never yields an `AnalysisResult` — it contributes to neither the
oracle-call list nor the analyses; the loop outputs are exactly the
filtered maps over the retained files. -/
theorem absent_content_never_analyzed
    (oracle : String → String → Except String OracleTexts) (full : Bool)
    (fs : List ChangedFile) (f : ChangedFile) (hf : f ∈ fs) (hc : f.content = none) :
    attemptedName f = none ∧
    attemptOf oracle full f = none ∧
    (runLoop oracle full fs).attempted = fs.filterMap attemptedName ∧
    (runLoop oracle full fs).analyses = fs.filterMap (attemptOf oracle full) := by
  refine ⟨?_, ?_, ?_, ?_⟩
  · simp [attemptedName, hc]
  · simp [attemptOf, hc]
  · rw [runLoop_eq]
  · rw [runLoop_eq]

/-- Witness for the C3 amended theorem. -/
theorem absent_content_never_analyzed_witness :
    fileNoContent.content = none ∧
    attemptedName fileNoContent = none ∧
    attemptOf oracleBenign true fileNoContent = none :=
  ⟨rfl,
    (absent_content_never_analyzed oracleBenign true [fileNoContent, fileA]
      fileNoContent (List.mem_cons_self _ _) rfl).1,
    (absent_content_never_analyzed oracleBenign true [fileNoContent, fileA]
      fileNoContent (List.mem_cons_self _ _) rfl).2.1⟩

def envC6 : Env :=
  { repo := "o/r", prInfo := .ok "t", changedFiles := .ok []
    oracle := oracleBenign, postResp := fun _ => okResp, now := "ts" }

/-- C6: with an empty retained-file list the pipeline short-circuits —
it posts the trivial nothing-to-review comment, makes zero oracle calls,
and completes successfully. -/
theorem empty_pr_short_circuits (env : Env) (full : Bool) (title : String)
    (h1 : env.prInfo = .ok title) (h2 : env.changedFiles = .ok []) :
    (analyze_pr env full).1.success = true ∧
    (analyze_pr env full).1.files_analyzed = some 0 ∧
    (analyze_pr env full).1.message = some "No Python files to analyze" ∧
    (analyze_pr env full).2.oracleCalls = [] ∧
    (analyze_pr env full).2.postAttempts = [noFilesComment] ∧
    pyContains noFilesComment "No Python files were changed" = true := by
  simp only [analyze_pr, h1, h2]
  exact ⟨rfl, rfl, rfl, rfl, rfl, by decide⟩

/-- Witness for C6 at a concrete empty-PR environment. -/
theorem empty_pr_short_circuits_witness :
    envC6.changedFiles = .ok [] ∧ (analyze_pr envC6 true).1.success = true :=
  ⟨rfl, (empty_pr_short_circuits envC6 true "t" rfl rfl).1⟩

def envC10 : Env :=
  { repo := "o/r", prInfo := .ok "t", changedFiles := .ok []
    oracle := oracleBenign, postResp := fun _ => errResp, now := "ts" }

/-- C10: on the zero-retained-files path the `CommentResult` of the
trivial post is never inspected — even when the post fails, `analyze_pr`
returns success with zero files analyzed and no error. -/
theorem empty_pr_post_failure_swallowed (env : Env) (full : Bool) (title : String)
    (h1 : env.prInfo = .ok title) (h2 : env.changedFiles = .ok [])
    (h3 : (post_comment (env.postResp 0)).success = false) :
    (analyze_pr env full).1.success = true ∧
    (analyze_pr env full).1.files_analyzed = some 0 ∧
    (analyze_pr env full).1.error = none ∧
    (analyze_pr env full).2.postAttempts = [noFilesComment] := by
  simp only [analyze_pr, h1, h2]
  exact ⟨rfl, rfl, rfl, rfl⟩

/-- Witness for C10: the trivial post fails (HTTP 500), the run still
reports success. -/
theorem empty_pr_post_failure_swallowed_witness :
    (post_comment (envC10.postResp 0)).success = false ∧
    (analyze_pr envC10 true).1.success = true :=
  ⟨rfl, (empty_pr_post_failure_swallowed envC10 true "t" rfl rfl rfl).1⟩

def envC7 : Env :=
  { repo := "o/r", prInfo := .ok "t", changedFiles := .ok [fileA]
    oracle := oracleBenign
    postResp := fun n => if n ≥ 2 then okResp else errResp, now := "ts" }

/-- C7 counterexample: the environment would accept the publish on its
third attempt, but the pipeline makes exactly one attempt and fails —
there is no retry. -/
theorem publish_not_retried :
    (post_comment (envC7.postResp 0)).success = false ∧
    (post_comment (envC7.postResp 1)).success = false ∧
    (post_comment (envC7.postResp 2)).success = true ∧
    (analyze_pr envC7 true).1.success = false ∧
    (analyze_pr envC7 true).2.postAttempts.length = 1 :=
  ⟨rfl, rfl, rfl, rfl, rfl⟩

/-- C7 amended: the final report is posted exactly once with no retry;
the run succeeds exactly when that single POST returns 201, and a
publish failure is reported with the distinct `Failed to post comment:`
error text. -/
theorem publish_single_attempt (env : Env) (full : Bool) (title : String)
    (fs : List ChangedFile)
    (h1 : env.prInfo = .ok title) (h2 : env.changedFiles = .ok fs) (h3 : fs ≠ [])
    (h4 : (runLoop env.oracle full fs).analyses ≠ []) :
    (analyze_pr env full).2.postAttempts.length = 1 ∧
    ((analyze_pr env full).1.success = true ↔ (env.postResp 0).status_code = 201) ∧
    ((env.postResp 0).status_code ≠ 201 →
      (analyze_pr env full).1.error
        = some ("Failed to post comment: " ++ toString (env.postResp 0).status_code
            ++ " - " ++ (env.postResp 0).text)) := by
  have hne : fs.isEmpty = false := by
    cases fs with
    | nil => exact absurd rfl h3
    | cons a l => rfl
  have hA' : (runLoop env.oracle full fs).analyses.isEmpty = false := by
    cases hx : (runLoop env.oracle full fs).analyses with
    | nil => exact absurd hx h4
    | cons a l => rfl
  by_cases hs : (env.postResp 0).status_code = 201 <;>
    simp [analyze_pr, h1, h2, hne, hA', post_comment, hs]

/-- Witness for the C7 amended theorem at the failing-post environment. -/
theorem publish_single_attempt_witness :
    (envC7.postResp 0).status_code = 500 ∧
    (analyze_pr envC7 true).2.postAttempts.length = 1 :=
  ⟨rfl, (publish_single_attempt envC7 true "t" [fileA] rfl rfl
    (List.cons_ne_nil _ _) (by decide)).1⟩

/-! ### Report structure (C8, C9) -/

theorem infixOfAppendLeft {α : Type} (s : List α) {t u : List α} (h : t <:+: u) :
    t <:+: s ++ u :=
  h.trans ⟨s, [], by simp⟩

theorem infixOfAppendRight {α : Type} (u : List α) {t s : List α} (h : t <:+: s) :
    t <:+: s ++ u :=
  h.trans ⟨[], u, by simp⟩

theorem secBlock_infix_fileSection (a : AnalysisResult) :
    (secHeader ++ a.security ++ detailsClose).data <:+: (fileSection a).data := by
  refine ⟨("### 📄 `" ++ a.filename ++ "`\n\n<details>\n").data,
    ("\n\n<details>\n" ++ (qualHeader ++ a.quality ++ detailsClose)
      ++ "\n\n<details>\n" ++ (migHeader ++ a.migration ++ detailsClose)
      ++ "\n\n<details>\n" ++ (refHeader ++ a.refactoring ++ detailsClose)
      ++ "\n\n---\n\n").data, ?_⟩
  simp [fileSection, String.data_append, List.append_assoc]

theorem qualBlock_infix_fileSection (a : AnalysisResult) :
    (qualHeader ++ a.quality ++ detailsClose).data <:+: (fileSection a).data := by
  refine ⟨("### 📄 `" ++ a.filename ++ "`\n\n<details>\n"
      ++ (secHeader ++ a.security ++ detailsClose) ++ "\n\n<details>\n").data,
    ("\n\n<details>\n" ++ (migHeader ++ a.migration ++ detailsClose)
      ++ "\n\n<details>\n" ++ (refHeader ++ a.refactoring ++ detailsClose)
      ++ "\n\n---\n\n").data, ?_⟩
  simp [fileSection, String.data_append, List.append_assoc]

theorem migBlock_infix_fileSection (a : AnalysisResult) :
    (migHeader ++ a.migration ++ detailsClose).data <:+: (fileSection a).data := by
  refine ⟨("### 📄 `" ++ a.filename ++ "`\n\n<details>\n"
      ++ (secHeader ++ a.security ++ detailsClose) ++ "\n\n<details>\n"
      ++ (qualHeader ++ a.quality ++ detailsClose) ++ "\n\n<details>\n").data,
    ("\n\n<details>\n" ++ (refHeader ++ a.refactoring ++ detailsClose)
      ++ "\n\n---\n\n").data, ?_⟩
  simp [fileSection, String.data_append, List.append_assoc]

theorem refBlock_infix_fileSection (a : AnalysisResult) :
    (refHeader ++ a.refactoring ++ detailsClose).data <:+: (fileSection a).data := by
  refine ⟨("### 📄 `" ++ a.filename ++ "`\n\n<details>\n"
      ++ (secHeader ++ a.security ++ detailsClose) ++ "\n\n<details>\n"
      ++ (qualHeader ++ a.quality ++ detailsClose) ++ "\n\n<details>\n"
      ++ (migHeader ++ a.migration ++ detailsClose) ++ "\n\n<details>\n").data,
    ("\n\n---\n\n" : String).data, ?_⟩
  simp [fileSection, String.data_append, List.append_assoc]

theorem fileSection_infix_sections {a : AnalysisResult} :
    ∀ {analyses : List AnalysisResult}, a ∈ analyses →
      (fileSection a).data <:+: (sectionsBlock analyses).data := by
  intro analyses ha
  induction analyses with
  | nil => cases ha
  | cons b rest ih =>
    rcases List.mem_cons.mp ha with h | h
    · subst h
      show (fileSection a).data <:+: (fileSection a ++ sectionsBlock rest).data
      rw [String.data_append]
      exact infixOfAppendRight _ List.infix_rfl
    · show (fileSection a).data <:+: (fileSection b ++ sectionsBlock rest).data
      rw [String.data_append]
      exact infixOfAppendLeft _ (ih h)

theorem sections_infix_format (repo : String) (analyses : List AnalysisResult)
    (pr_title : String) (hc hh : Bool) (ts : String) :
    (sectionsBlock analyses).data
      <:+: (format_analysis_comment repo analyses pr_title hc hh ts).data := by
  refine ⟨(headerBeforeTime hc hh pr_title analyses.length ++ ts ++ "\n\n---\n\n").data,
    (mergeRecommendation hc hh ++ commentTail repo).data, ?_⟩
  simp [format_analysis_comment, String.data_append, List.append_assoc]

def resultC8 : AnalysisResult := analyze_security_only "f.py" "all good"

def docC8 : String := format_analysis_comment "o/r" [resultC8] "t" false false "ts"

/-- C8 counterexample: a security-only result has empty quality text; the
rendered document contains the quality section header immediately
followed by its closing tag (an empty body), and contains the words
"no findings" in no casing whatsoever — there is no placeholder. -/
theorem empty_category_renders_empty :
    resultC8.quality = "" ∧
    pyContains docC8 "<summary>📊 Code Quality</summary>\n\n\n\n</details>" = true ∧
    pyContains (pyUpper docC8) "NO FINDINGS" = false :=
  ⟨rfl, by decide, by decide⟩

/-- C8 amended: the formatter is total and never omits a category
section: for every analysis result in the input, all four category
blocks appear in the output with the category text embedded verbatim —
an empty category text yields an empty section body rather than a
placeholder or an omitted section. -/
theorem category_sections_always_rendered (repo : String)
    (analyses : List AnalysisResult) (pr_title : String) (hc hh : Bool) (ts : String)
    (a : AnalysisResult) (ha : a ∈ analyses) :
    (secHeader ++ a.security ++ detailsClose).data
        <:+: (format_analysis_comment repo analyses pr_title hc hh ts).data ∧
    (qualHeader ++ a.quality ++ detailsClose).data
        <:+: (format_analysis_comment repo analyses pr_title hc hh ts).data ∧
    (migHeader ++ a.migration ++ detailsClose).data
        <:+: (format_analysis_comment repo analyses pr_title hc hh ts).data ∧
    (refHeader ++ a.refactoring ++ detailsClose).data
        <:+: (format_analysis_comment repo analyses pr_title hc hh ts).data :=
  ⟨(secBlock_infix_fileSection a).trans ((fileSection_infix_sections ha).trans
      (sections_infix_format repo analyses pr_title hc hh ts)),
   (qualBlock_infix_fileSection a).trans ((fileSection_infix_sections ha).trans
      (sections_infix_format repo analyses pr_title hc hh ts)),
   (migBlock_infix_fileSection a).trans ((fileSection_infix_sections ha).trans
      (sections_infix_format repo analyses pr_title hc hh ts)),
   (refBlock_infix_fileSection a).trans ((fileSection_infix_sections ha).trans
      (sections_infix_format repo analyses pr_title hc hh ts))⟩

/-- Witness for the C8 amended theorem at the security-only result. -/
theorem category_sections_always_rendered_witness :
    resultC8 ∈ [resultC8] ∧
    (qualHeader ++ resultC8.quality ++ detailsClose).data <:+: docC8.data :=
  ⟨List.mem_cons_self _ _,
    (category_sections_always_rendered "o/r" [resultC8] "t" false false "ts"
      resultC8 (List.mem_cons_self _ _)).2.1⟩

def resultC9 : AnalysisResult := analyze_security_only "g.py" "looks fine"

/-- C9 counterexample: two formatter runs with identical PR title,
analyses, flags and repo — the inputs the source function actually
takes — produce different bytes when the internal clock read differs,
because the timestamp is read inside the function rather than injected. -/
theorem format_depends_on_internal_clock :
    format_analysis_comment "o/r" [resultC9] "t" false false "2024-01-01 00:00:00 UTC"
      ≠ format_analysis_comment "o/r" [resultC9] "t" false false "2024-01-01 00:00:01 UTC" := by
  decide

/-- C9 amended: two calls with identical title, analyses, flags and repo
produce byte-identical output exactly when the internally read
`datetime.now()` string coincides; the timestamp is an internal clock
read, not an injected parameter. -/
theorem format_deterministic_iff_same_clock (repo : String)
    (analyses : List AnalysisResult) (pr_title : String) (hc hh : Bool)
    (ts₁ ts₂ : String) :
    format_analysis_comment repo analyses pr_title hc hh ts₁
      = format_analysis_comment repo analyses pr_title hc hh ts₂ ↔ ts₁ = ts₂ := by
  constructor
  · intro h
    have hd := congrArg String.data h
    simp only [format_analysis_comment, String.data_append] at hd
    exact String.ext (List.append_cancel_left
      (List.append_cancel_right (List.append_cancel_right (List.append_cancel_right
        (List.append_cancel_right hd)))))
  · intro h
    rw [h]

end PRAnalyzer
